import Mathlib

/-!
Shallow embedding of the reservation-admission core of the serverless
table-reservation backend (`task11/app/lambdas/api_handler/index.js`, plus the
duplicate handler variants in `index1.js` and the second document concatenated
into `index.js`).

Modelling conventions:
* JS strings are Lean `String`s; `parseTime` works on the underlying character
  list, with `splitOnColon` modelling `String.prototype.split(":")`.
* JS numbers that can be `NaN` are `Option Nat` (`none` = `NaN`); `jsLt`
  models `<` on such values (every comparison with `NaN` is `false`).
* `jsNumber` models the JS `Number()` conversion on the string fragments this
  code feeds it: the empty string converts to `0`, a digit string converts to
  its decimal value, anything else is `NaN` (`none`).
* The DynamoDB tables are value-level lists inside a `Store`; a scan with a
  filter expression is a `List.filter`, a put is an append.
* The reachable admission routine `handleCreateReservation` calls `uidv4()`
  (line 444), an identifier that is never bound (the import binds `uuidv4`),
  so after a conflict-free scan the code raises a `ReferenceError` which the
  outer `catch` turns into a 500 response; this is modelled by the
  `internalError` outcome with the store unchanged.  `handleCreateReservationFixed`
  models the evident intent with the identifier typo repaired, the generated
  id and the success/failure of the storage put passed in as parameters.
-/

/-- Model of `timeStr.split(":")` on the character list of a JS string:
split at every `':'`, keeping empty segments, as `String.prototype.split`
does. -/
def splitOnColon : List Char → List (List Char)
  | [] => [[]]
  | c :: cs =>
    if c = ':' then [] :: splitOnColon cs
    else
      match splitOnColon cs with
      | [] => [[c]]
      | s :: ss => (c :: s) :: ss

/-- Model of the JS `Number()` conversion on the strings this code applies it
to: `Number("") = 0`, a digit string converts to its decimal value, and any
other string is `NaN`, modelled as `none`. -/
def jsNumber (cs : List Char) : Option Nat :=
  if cs.all Char.isDigit then
    some (cs.foldl (fun acc c => acc * 10 + (c.toNat - 48)) 0)
  else none

/-- Embedding of `parseTime` (`index.js` lines 527-530):
`const [hour, minute] = timeStr.split(":").map(Number); return hour * 60 + minute;`.
The destructuring takes the first two split segments; with fewer than two
segments `minute` is `undefined` and the arithmetic yields `NaN` (`none`),
and `NaN` from either component propagates. -/
def parseTime (s : String) : Option Nat :=
  match splitOnColon s.data with
  | p0 :: p1 :: _ =>
    match jsNumber p0, jsNumber p1 with
    | some h, some m => some (h * 60 + m)
    | _, _ => none
  | _ => none

/-- JS `<` on numbers that may be `NaN`: any comparison involving `NaN` is
`false`. -/
def jsLt : Option Nat → Option Nat → Bool
  | some a, some b => decide (a < b)
  | _, _ => false

/-- JS `<=` on numbers (here: timestamps) that may be `NaN`. -/
def jsLe : Option Nat → Option Nat → Bool
  | some a, some b => decide (a ≤ b)
  | _, _ => false

/-- The conflict test of the reachable admission routine (`index.js` line 438):
`newStart < existingEnd && existingStart < newEnd`. -/
def conflictTest (newStart newEnd existingStart existingEnd : Option Nat) : Bool :=
  jsLt newStart existingEnd && jsLt existingStart newEnd

/-- The conflict formula of the duplicate handler variants
(`index1.js` lines 262-269 `createReservation`, and `validateReservation`
in the second document of `index.js`, lines 872-880):
`(actualStart <= reqStart && actualEnd >= reqStart) || (actualStart <= reqEnd && actualEnd >= reqEnd)`.
Those variants compare `new Date(date + " " + time)` values; for a fixed
calendar date this is order-isomorphic to comparing the times in minutes,
which is how the arguments are given here. -/
def dupConflict (actualStart actualEnd reqStart reqEnd : Nat) : Bool :=
  (decide (actualStart ≤ reqStart) && decide (actualEnd ≥ reqStart)) ||
  (decide (actualStart ≤ reqEnd) && decide (actualEnd ≥ reqEnd))

/-- A row of the Tables table (`handleCreateTable` writes
`{id, number, places, isVip, minOrder}`). -/
structure Table where
  id : String
  number : Nat
  places : Nat
  isVip : Bool
  minOrder : Nat
deriving DecidableEq, Repr

/-- A row of the Reservations table (the item built at `index.js`
lines 445-453). -/
structure Reservation where
  id : String
  tableNumber : Nat
  clientName : String
  phoneNumber : String
  date : String
  slotTimeStart : String
  slotTimeEnd : String
deriving DecidableEq, Repr

/-- The request body destructured at `index.js` line 397.  JS truthiness of
the fields is modelled as: a number is falsy iff it is `0`, a string is falsy
iff it is `""` (an absent field is modelled by its falsy value). -/
structure ReservationRequest where
  tableNumber : Nat
  clientName : String
  phoneNumber : String
  date : String
  slotTimeStart : String
  slotTimeEnd : String
deriving DecidableEq, Repr

/-- The two DynamoDB tables the admission routine touches. -/
structure Store where
  tables : List Table
  reservations : List Reservation
deriving DecidableEq, Repr

/-- Outcome of one call to the create-reservation handler, abstracting the
HTTP response bodies of `index.js` lines 398-464 and the outer catch. -/
inductive CreateResult where
  /-- 400 "Table number, date, slotTimeStart, and slotTimeEnd are required". -/
  | missingFields
  /-- 400 "Table not found". -/
  | tableNotFound
  /-- 400 "Reservation overlaps with existing reservation". -/
  | overlapConflict
  /-- 200 `{reservationId}`. -/
  | created (reservationId : String)
  /-- 400 "Failed to create reservation" (the inner catch around the put). -/
  | storageFailure
  /-- 500 "Internal Server Error" (the outer catch around the whole handler). -/
  | internalError
deriving DecidableEq, Repr

/-- The field check at `index.js` line 398:
`if (!tableNumber || !date || !slotTimeStart || !slotTimeEnd)` —
note that `clientName` and `phoneNumber` are destructured but not checked. -/
def missingRequired (req : ReservationRequest) : Bool :=
  req.tableNumber == 0 || req.date == "" || req.slotTimeStart == "" || req.slotTimeEnd == ""

/-- The table-catalog scan of `index.js` lines 404-411: filter the Tables
table on `number = tableNumber` (the business-facing number, not the key). -/
def scanTablesByNumber (st : Store) (tableNumber : Nat) : List Table :=
  st.tables.filter fun t => t.number == tableNumber

/-- The reservation scan of `index.js` lines 418-428: filter the Reservations
table on `tableNumber = :tableNum and date = :date` (exact string equality on
the date). -/
def scanReservations (st : Store) (tableNumber : Nat) (date : String) : List Reservation :=
  st.reservations.filter fun r => r.tableNumber == tableNumber && r.date == date

/-- The conflict scan of `index.js` lines 433-442: walk the fetched items and
report a conflict as soon as `conflictTest` holds for one of them (the loop
returns on the first hit; since the rejection response does not depend on
which item hit, the early-exit loop is observationally `List.any`). -/
def anyConflict (newStart newEnd : Option Nat) (items : List Reservation) : Bool :=
  items.any fun r => conflictTest newStart newEnd (parseTime r.slotTimeStart) (parseTime r.slotTimeEnd)

/-- Embedding of the reachable part of `handleCreateReservation`
(`index.js` lines 395-464), literal to the source: after a conflict-free scan
the code evaluates `uidv4()`, an unbound identifier, so it raises a
`ReferenceError` that the outer catch maps to a 500 response and no write
ever happens. -/
def handleCreateReservation (req : ReservationRequest) (st : Store) : CreateResult × Store :=
  if missingRequired req then
    (.missingFields, st)
  else if (scanTablesByNumber st req.tableNumber).length == 0 then
    (.tableNotFound, st)
  else
    let items := scanReservations st req.tableNumber req.date
    let newStart := parseTime req.slotTimeStart
    let newEnd := parseTime req.slotTimeEnd
    if anyConflict newStart newEnd items then
      (.overlapConflict, st)
    else
      (.internalError, st)

/-- The reservation record built at `index.js` lines 445-453. -/
def mkReservation (reservationId : String) (req : ReservationRequest) : Reservation :=
  { id := reservationId
    tableNumber := req.tableNumber
    clientName := req.clientName
    phoneNumber := req.phoneNumber
    date := req.date
    slotTimeStart := req.slotTimeStart
    slotTimeEnd := req.slotTimeEnd }

/-- The same handler with the evident intent of line 444 restored
(`uuidv4()` instead of the unbound `uidv4`): `freshId` is the generated
identifier, and `putOk` tells whether the `PutItemCommand` succeeds — when it
throws, the inner catch returns the 400 "Failed to create reservation"
response and the (atomic) put has written nothing. -/
def handleCreateReservationFixed (freshId : String) (putOk : Bool)
    (req : ReservationRequest) (st : Store) : CreateResult × Store :=
  if missingRequired req then
    (.missingFields, st)
  else if (scanTablesByNumber st req.tableNumber).length == 0 then
    (.tableNotFound, st)
  else
    let items := scanReservations st req.tableNumber req.date
    let newStart := parseTime req.slotTimeStart
    let newEnd := parseTime req.slotTimeEnd
    if anyConflict newStart newEnd items then
      (.overlapConflict, st)
    else if putOk then
      (.created freshId, { st with reservations := st.reservations ++ [mkReservation freshId req] })
    else
      (.storageFailure, st)

/-- A concrete well-formed request, matching the end-to-end scenario of the
spec: table 5, date "2024-06-01", slot 18:00-19:00. -/
def reqDemo : ReservationRequest :=
  { tableNumber := 5
    clientName := "Alice"
    phoneNumber := "12345"
    date := "2024-06-01"
    slotTimeStart := "18:00"
    slotTimeEnd := "19:00" }

/-- A concrete table with business number 5. -/
def tableFive : Table :=
  { id := "1", number := 5, places := 4, isVip := false, minOrder := 0 }

/-- A store holding table 5 and no reservations. -/
def storeTableOnly : Store :=
  { tables := [tableFive], reservations := [] }

/-- A store holding nothing at all. -/
def emptyStore : Store :=
  { tables := [], reservations := [] }

/-- The demo request with an empty `clientName` (all other fields present). -/
def reqNoClient : ReservationRequest :=
  { reqDemo with clientName := "" }

/-- The demo request with an empty `date`. -/
def reqNoDate : ReservationRequest :=
  { reqDemo with date := "" }

/-- The demo request with the time window inverted: 19:00-18:00. -/
def reqInverted : ReservationRequest :=
  { reqDemo with slotTimeStart := "19:00", slotTimeEnd := "18:00" }

/-- A concrete reservation for table 5 in the evening slot. -/
def resEvening : Reservation :=
  { id := "r-ev"
    tableNumber := 5
    clientName := "Bob"
    phoneNumber := "67890"
    date := "2024-06-01"
    slotTimeStart := "18:00"
    slotTimeEnd := "19:00" }

/-- A concrete reservation for table 5 in the morning slot. -/
def resMorning : Reservation :=
  { id := "r-mo"
    tableNumber := 5
    clientName := "Carol"
    phoneNumber := "24680"
    date := "2024-06-01"
    slotTimeStart := "10:00"
    slotTimeEnd := "11:00" }

/-- A store holding table 5 and the two reservations, evening first. -/
def storeEveningFirst : Store :=
  { tables := [tableFive], reservations := [resEvening, resMorning] }

/-- The same store with the two reservations in the opposite order. -/
def storeMorningFirst : Store :=
  { tables := [tableFive], reservations := [resMorning, resEvening] }

/-- Lists that are permutations of one another agree on `List.any`. -/
theorem perm_any_eq {α : Type} {l₁ l₂ : List α} (h : l₁.Perm l₂) (f : α → Bool) :
    l₁.any f = l₂.any f := by
  rw [Bool.eq_iff_iff]
  simp only [List.any_eq_true]
  exact ⟨fun ⟨x, hx, hfx⟩ => ⟨x, h.mem_iff.mp hx, hfx⟩,
         fun ⟨x, hx, hfx⟩ => ⟨x, h.mem_iff.mpr hx, hfx⟩⟩

/-- A string of decimal digits converted by `jsNumber` contains no colon. -/
theorem jsNumber_no_colon {cs : List Char} {n : Nat} (h : jsNumber cs = some n) :
    ':' ∉ cs := by
  intro hmem
  rw [jsNumber] at h
  by_cases hall : cs.all Char.isDigit
  · have : (':' : Char).isDigit = true := List.all_eq_true.mp hall ':' hmem
    exact absurd this (by decide)
  · rw [if_neg hall] at h
    exact Option.noConfusion h

/-- Splitting a colon-free string at colons yields the single segment. -/
theorem splitOnColon_no_colon {cs : List Char} (h : ':' ∉ cs) :
    splitOnColon cs = [cs] := by
  induction cs with
  | nil => rfl
  | cons c cs ih =>
    have hc : ¬c = ':' := fun hce => h (hce ▸ List.mem_cons_self c cs)
    have hrest : ':' ∉ cs := fun hm => h (List.mem_cons_of_mem c hm)
    simp only [splitOnColon, if_neg hc, ih hrest]

/-- Splitting `xs ++ ':' :: ys` when `xs` is colon-free peels off `xs` as the
first segment. -/
theorem splitOnColon_append {xs ys : List Char} (h : ':' ∉ xs) :
    splitOnColon (xs ++ ':' :: ys) = xs :: splitOnColon ys := by
  induction xs with
  | nil => simp [splitOnColon]
  | cons c cs ih =>
    have hc : ¬c = ':' := fun hce => h (hce ▸ List.mem_cons_self c cs)
    have hrest : ':' ∉ cs := fun hm => h (List.mem_cons_of_mem c hm)
    rw [List.cons_append]
    simp only [splitOnColon, if_neg hc, ih hrest]

/-- C1: the reachable admission routine's conflict test, on actual
minute-since-midnight values (non-`NaN`), reports a conflict iff
`newStart < existingEnd` and `existingStart < newEnd`. -/
theorem conflictTest_iff_halfOpenOverlap (ns ne es ee : Nat) :
    conflictTest (some ns) (some ne) (some es) (some ee) = true ↔ ns < ee ∧ es < ne := by
  simp [conflictTest, jsLt]

/-- C2: on a valid request for an existing table with zero prior reservations,
the code as written does not succeed: the unbound `uidv4` raises a
`ReferenceError`, the outer catch returns a 500 response, and nothing is
written; with the evident intent restored (`uuidv4`), the same input succeeds,
writes exactly the requested record, and returns the generated identifier. -/
theorem createReservation_uidv4_referenceError :
    handleCreateReservation reqDemo storeTableOnly = (.internalError, storeTableOnly) ∧
    handleCreateReservationFixed "res-1" true reqDemo storeTableOnly =
      (.created "res-1", { storeTableOnly with reservations := [mkReservation "res-1" reqDemo] }) := by
  exact ⟨rfl, rfl⟩

/-- C3: when all four checked fields are truthy and no table in the catalog
has the requested business number, the handler rejects with the
table-not-found response and returns the store unchanged. -/
theorem createReservation_tableNotFound (req : ReservationRequest) (st : Store)
    (hn : req.tableNumber ≠ 0) (hd : req.date ≠ "") (hs : req.slotTimeStart ≠ "")
    (he : req.slotTimeEnd ≠ "")
    (habs : ∀ t ∈ st.tables, t.number ≠ req.tableNumber) :
    handleCreateReservation req st = (.tableNotFound, st) := by
  have hmiss : missingRequired req = false := by
    simp [missingRequired, hn, hd, hs, he]
  have hscan : scanTablesByNumber st req.tableNumber = [] := by
    rw [scanTablesByNumber, List.filter_eq_nil_iff]
    intro t ht
    simpa using habs t ht
  rw [handleCreateReservation, hmiss, hscan]
  rfl

/-- Witness for C3: the demo request against the empty catalog is rejected
with table-not-found and the store is unchanged. -/
theorem createReservation_tableNotFound_witness :
    reqDemo.tableNumber ≠ 0 ∧
    handleCreateReservation reqDemo emptyStore = (.tableNotFound, emptyStore) :=
  ⟨by decide,
   createReservation_tableNotFound reqDemo emptyStore (by decide) (by decide)
     (by decide) (by decide) (by intro t ht; simp [emptyStore] at ht)⟩

/-- C6: adjacency is not overlap: whenever the candidate starts exactly where
the existing reservation ends, or the existing one starts exactly where the
candidate ends, the conflict test reports no conflict. -/
theorem conflictTest_adjacent_false (ns ne es ee : Nat) (h : ns = ee ∨ es = ne) :
    conflictTest (some ns) (some ne) (some es) (some ee) = false := by
  rcases h with h | h <;> simp [conflictTest, jsLt, h]

/-- Witness for C6: `overlaps([0,60), [60,120)) = false`. -/
theorem conflictTest_adjacent_false_witness :
    ((0 : Nat) = 120 ∨ (60 : Nat) = 60) ∧
    conflictTest (some 0) (some 60) (some 60) (some 120) = false :=
  ⟨Or.inr rfl, conflictTest_adjacent_false 0 60 60 120 (Or.inr rfl)⟩

/-- Counterexample for C7: a request whose `clientName` is empty (all other
fields present) is not rejected with the missing-fields error — the handler
proceeds to the table-catalog scan and reports table-not-found instead. -/
theorem missingFields_counterexample :
    reqNoClient.clientName = "" ∧
    (handleCreateReservation reqNoClient emptyStore).1 = .tableNotFound ∧
    (handleCreateReservation reqNoClient emptyStore).1 ≠ .missingFields :=
  ⟨rfl, rfl, by decide⟩

/-- C7 (amended): whenever one of the four fields the code actually checks
(`tableNumber`, `date`, `slotTimeStart`, `slotTimeEnd`) is falsy, the handler
rejects with the missing-fields error, leaves the store unchanged, and its
decision is independent of the store contents (no read has influenced it);
`clientName` and `phoneNumber` are not validated. -/
theorem createReservation_missingRequired (req : ReservationRequest) (st st' : Store)
    (h : req.tableNumber = 0 ∨ req.date = "" ∨ req.slotTimeStart = "" ∨ req.slotTimeEnd = "") :
    handleCreateReservation req st = (.missingFields, st) ∧
    (handleCreateReservation req st).1 = (handleCreateReservation req st').1 := by
  have hmiss : missingRequired req = true := by
    rcases h with h | h | h | h <;> simp [missingRequired, h]
  constructor
  · rw [handleCreateReservation, hmiss]
    rfl
  · rw [handleCreateReservation, handleCreateReservation, hmiss]
    rfl

/-- Witness for C7 (amended): the demo request with an empty date is rejected
with the missing-fields error on the store holding table 5, leaving it
unchanged (and the decision equals the one on the empty store). -/
theorem createReservation_missingRequired_witness :
    (reqNoDate.tableNumber = 0 ∨ reqNoDate.date = "" ∨ reqNoDate.slotTimeStart = "" ∨
      reqNoDate.slotTimeEnd = "") ∧
    handleCreateReservation reqNoDate storeTableOnly = (.missingFields, storeTableOnly) :=
  ⟨Or.inr (Or.inl rfl),
   (createReservation_missingRequired reqNoDate storeTableOnly emptyStore
     (Or.inr (Or.inl rfl))).1⟩

/-- C8: the conflict formula of the duplicate handler variants is not the
half-open overlap predicate: on a candidate `[0,100)` strictly containing the
existing reservation `[10,20)`, the duplicate formula reports no conflict
while the reachable routine's half-open test reports one. -/
theorem dupConflict_not_halfOpenOverlap :
    dupConflict 10 20 0 100 ≠ conflictTest (some 0) (some 100) (some 10) (some 20) ∧
    dupConflict 10 20 0 100 = false ∧
    conflictTest (some 0) (some 100) (some 10) (some 20) = true ∧
    0 < 10 ∧ 20 < 100 := by
  refine ⟨by decide, by decide, by decide, by decide, by decide⟩

/-- C4: write discipline of the admission routine.  The literal handler never
changes the store (every rejection path, including the 500 raised by the
unbound `uidv4`, returns it untouched); the intent-restored handler changes
the store exactly when it returns the created result, and then by appending
precisely the one requested record. -/
theorem createReservation_write_discipline (req : ReservationRequest) (st : Store)
    (freshId : String) (putOk : Bool) :
    (handleCreateReservation req st).2 = st ∧
    (handleCreateReservationFixed freshId putOk req st).2 =
      (if (handleCreateReservationFixed freshId putOk req st).1 = .created freshId
       then { st with reservations := st.reservations ++ [mkReservation freshId req] }
       else st) := by
  refine ⟨?_, ?_⟩
  · simp only [handleCreateReservation]
    repeat' split
    all_goals rfl
  · simp only [handleCreateReservationFixed]
    repeat' split
    all_goals simp_all

/-- C5: the accept/reject decision is invariant under permuting the stored
reservations (the scan order): with equal table catalogs and permuted
reservation lists, both the literal handler and the intent-restored handler
return the same outcome. -/
theorem createReservation_perm_invariant (req : ReservationRequest)
    (st₁ st₂ : Store) (freshId : String) (putOk : Bool)
    (ht : st₁.tables = st₂.tables)
    (hp : st₁.reservations.Perm st₂.reservations) :
    (handleCreateReservation req st₁).1 = (handleCreateReservation req st₂).1 ∧
    (handleCreateReservationFixed freshId putOk req st₁).1 =
      (handleCreateReservationFixed freshId putOk req st₂).1 := by
  have hscan : scanTablesByNumber st₁ req.tableNumber = scanTablesByNumber st₂ req.tableNumber := by
    rw [scanTablesByNumber, scanTablesByNumber, ht]
  have hpf : (scanReservations st₁ req.tableNumber req.date).Perm
      (scanReservations st₂ req.tableNumber req.date) := hp.filter _
  have hany : anyConflict (parseTime req.slotTimeStart) (parseTime req.slotTimeEnd)
        (scanReservations st₁ req.tableNumber req.date) =
      anyConflict (parseTime req.slotTimeStart) (parseTime req.slotTimeEnd)
        (scanReservations st₂ req.tableNumber req.date) :=
    perm_any_eq hpf _
  constructor
  · simp only [handleCreateReservation, hscan, hany]
    repeat' split
    all_goals rfl
  · simp only [handleCreateReservationFixed, hscan, hany]
    repeat' split
    all_goals rfl

/-- Witness for C5: swapping the two stored reservations does not change the
outcome for the demo request. -/
theorem createReservation_perm_invariant_witness :
    storeEveningFirst.tables = storeMorningFirst.tables ∧
    storeEveningFirst.reservations.Perm storeMorningFirst.reservations ∧
    (handleCreateReservation reqDemo storeEveningFirst).1 =
      (handleCreateReservation reqDemo storeMorningFirst).1 :=
  ⟨rfl, List.Perm.swap resMorning resEvening [],
   (createReservation_perm_invariant reqDemo storeEveningFirst storeMorningFirst "res-1" true
     rfl (List.Perm.swap resMorning resEvening [])).1⟩

/-- C9: a request whose six fields are all present but whose window is
zero-length or inverted (`slotTimeEnd ≤ slotTimeStart` in minutes) is not
rejected on that ground: it passes the field validation, passes the table
lookup when the table exists, and when there are no stored reservations for
that table and date the conflict scan does not reject it either — the call
runs all the way to the id-generation step (which in the literal code raises
the `uidv4` `ReferenceError`). -/
theorem createReservation_invertedWindow_passes (req : ReservationRequest) (st : Store)
    (hn : req.tableNumber ≠ 0) (hc : req.clientName ≠ "") (hph : req.phoneNumber ≠ "")
    (hd : req.date ≠ "") (hs : req.slotTimeStart ≠ "") (he : req.slotTimeEnd ≠ "")
    (hinv : ∃ s e : Nat, parseTime req.slotTimeStart = some s ∧
      parseTime req.slotTimeEnd = some e ∧ e ≤ s)
    (htab : ∃ t ∈ st.tables, t.number = req.tableNumber)
    (hres : ∀ r ∈ st.reservations, ¬(r.tableNumber = req.tableNumber ∧ r.date = req.date)) :
    (handleCreateReservation req st).1 ≠ .missingFields ∧
    (handleCreateReservation req st).1 ≠ .tableNotFound ∧
    (handleCreateReservation req st).1 ≠ .overlapConflict ∧
    handleCreateReservation req st = (.internalError, st) := by
  have hmiss : missingRequired req = false := by
    simp [missingRequired, hn, hd, hs, he]
  obtain ⟨t, ht, hnum⟩ := htab
  have hmem : t ∈ scanTablesByNumber st req.tableNumber :=
    List.mem_filter.mpr ⟨ht, by simp [hnum]⟩
  have hlen : ((scanTablesByNumber st req.tableNumber).length == 0) = false := by
    have hne := List.ne_nil_of_mem hmem
    simp [List.length_eq_zero, hne]
  have hitems : scanReservations st req.tableNumber req.date = [] := by
    rw [scanReservations, List.filter_eq_nil_iff]
    intro r hr
    simpa using hres r hr
  have hfinal : handleCreateReservation req st = (.internalError, st) := by
    rw [handleCreateReservation, hmiss, hlen, hitems]
    simp [anyConflict]
  refine ⟨?_, ?_, ?_, hfinal⟩ <;> rw [hfinal] <;> simp

/-- Witness for C9: the demo request with window 19:00-18:00 (1140 ≥ 1080)
against table 5 and an empty reservation list passes every check and ends at
the id-generation step. -/
theorem createReservation_invertedWindow_passes_witness :
    (∃ s e : Nat, parseTime reqInverted.slotTimeStart = some s ∧
      parseTime reqInverted.slotTimeEnd = some e ∧ e ≤ s) ∧
    (handleCreateReservation reqInverted storeTableOnly).1 ≠ .overlapConflict ∧
    handleCreateReservation reqInverted storeTableOnly = (.internalError, storeTableOnly) := by
  have h := createReservation_invertedWindow_passes reqInverted storeTableOnly
    (by decide) (by decide) (by decide) (by decide) (by decide) (by decide)
    ⟨1140, 1080, rfl, rfl, by decide⟩
    ⟨tableFive, by decide, rfl⟩
    (by intro r hr; simp [storeTableOnly] at hr)
  exact ⟨⟨1140, 1080, rfl, rfl, by decide⟩, h.2.2.1, h.2.2.2⟩

/-- C10: on a well-formed time string — two colon-free components that
`Number()` converts to `h` and `m` — `parseTime` returns exactly
`h * 60 + m`, the minutes since midnight. -/
theorem parseTime_wellFormed (hs ms : List Char) (h m : Nat)
    (hh : jsNumber hs = some h) (hm : jsNumber ms = some m) :
    parseTime (String.mk (hs ++ ':' :: ms)) = some (h * 60 + m) := by
  have hhc : ':' ∉ hs := jsNumber_no_colon hh
  have hmc : ':' ∉ ms := jsNumber_no_colon hm
  have hdata : (String.mk (hs ++ ':' :: ms)).data = hs ++ ':' :: ms := rfl
  rw [parseTime, hdata, splitOnColon_append hhc, splitOnColon_no_colon hmc]
  simp [hh, hm]

/-- Witness for C10: `parseTime "18:30" = some 1110` (`18 * 60 + 30`). -/
theorem parseTime_wellFormed_witness :
    jsNumber ['1', '8'] = some 18 ∧ jsNumber ['3', '0'] = some 30 ∧
    parseTime (String.mk (['1', '8'] ++ ':' :: ['3', '0'])) = some 1110 :=
  ⟨by decide, by decide,
   parseTime_wellFormed ['1', '8'] ['3', '0'] 18 30 (by decide) (by decide)⟩
